import Mathlib

/-!
Shallow embedding of the cart / wallet / checkout core of the `web_ban_sua`
storefront (`src/dashboard/models.py`, `src/dashboard/views.py`).

Modelling conventions:
* All state touched by the claims is gathered in one `State` record, viewed
  from a single fixed account (every view first resolves the logged-in
  account and then only touches that account's cart and wallet, so accounts
  do not interact; the account's `Cart` and `Wallet` rows always exist, as
  `to_register_page` creates them and the cart/wallet views `get_or_create`
  them).
* Django `DecimalField` money values (prices, balances, totals) are exact
  decimals with two fractional digits; they are embedded as integer cents
  (`Int`), on which the code's arithmetic (sum, product with an integer
  quantity, comparison, subtraction) is exact.  `IntegerField` quantities
  are `Int`.
* The ORM queryset `CartItem.objects.filter(cart=cart)` is the list
  `State.cartLines`; `.first()` is first-match on that list.
* `on_delete` behaviour from `models.py` is part of the delete operation:
  deleting a `Product` CASCADE-deletes its `CartItem` rows and SET_NULLs the
  `product` reference of its `OrderItem` rows.
* View functions that answer HTTP 404 (`get_object_or_404`) are embedded as
  `Except WebError State`; views that render an error page keep the state
  unchanged and report the outcome in a result inductive.
-/

namespace WebBanSua

/-- A `Product` row (`models.py`): the fields read by the cart/checkout core.
`image` is `none` when the `ImageField` is null (falsy in the view code). -/
structure Product where
  product_id : Nat
  product_name : String
  price : Int
  image : Option String
  deriving Repr, DecidableEq

/-- A `CartItem` row belonging to the account's cart: a (product, quantity)
line.  The `product` foreign key is non-nullable with `on_delete=CASCADE`. -/
structure CartItem where
  product_id : Nat
  quantity : Int
  deriving Repr, DecidableEq

/-- An `Order` row (the fields written by `checkout`; `created_at` and the
account reference are omitted, the state being per-account). -/
structure Order where
  order_id : Nat
  total_amount : Int
  status : String
  receiver_name : String
  receiver_phone : String
  receiver_address : String
  deriving Repr, DecidableEq

/-- An `OrderItem` row: denormalized snapshot of a cart line.  `product` is a
nullable foreign key with `on_delete=SET_NULL`, embedded as `Option Nat`. -/
structure OrderItem where
  order_id : Nat
  product_id : Option Nat
  product_name : String
  unit_price : Int
  quantity : Int
  product_image_name : String
  deriving Repr, DecidableEq

/-- The database state visible to one account: the shared product catalog,
the account's cart (`cartLines` rows plus the denormalized `Cart.quantity`
counter), its wallet balance, and the order tables.  `nextOrderId` models the
`AutoField` primary key of `Order`. -/
structure State where
  catalog : List Product
  cartLines : List CartItem
  cartQuantity : Int
  walletBalance : Int
  nextOrderId : Nat
  orders : List Order
  orderItems : List OrderItem
  deriving Repr, DecidableEq

/-- Outcome of a view answering without mutating: `get_object_or_404`
failing, or a validation-error page. -/
inductive WebError where
  | notFound
  | invalidInput
  deriving Repr, DecidableEq

/-- `get_object_or_404(Product, product_id=product_id)` /
`Product.objects.filter(...).first()`: first catalog row with this id. -/
def findProduct (s : State) (pid : Nat) : Option Product :=
  s.catalog.find? (fun p => p.product_id == pid)

/-- Sum of the `quantity` column over a list of cart lines
(`aggregate(s=Sum("quantity"))`, with `None or 0` for the empty cart). -/
def cartLinesSum (lines : List CartItem) : Int :=
  (lines.map (fun l => l.quantity)).sum

/-- Helper `_recalc_cart_quantity(cart)` (views.py:58-63): overwrite the
denormalized counter with the live sum of line quantities. -/
def recalc_cart_quantity (s : State) : State :=
  { s with cartQuantity := cartLinesSum s.cartLines }

/-- The `item.quantity += 1; item.save()` branch of `add_to_cart`: increment
the first line matching the product (`filter(...).first()`). -/
def incFirst : List CartItem → Nat → List CartItem
  | [], _ => []
  | l :: rest, pid =>
    if l.product_id == pid then { l with quantity := l.quantity + 1 } :: rest
    else l :: incFirst rest pid

/-- View `add_to_cart(request, product_id)` (views.py:415-437): 404 if the
product does not exist; otherwise increment the existing line or create a
line with quantity 1, then recompute the cached cart quantity. -/
def add_to_cart (s : State) (pid : Nat) : Except WebError State :=
  match findProduct s pid with
  | none => .error .notFound
  | some _ =>
    let lines :=
      if s.cartLines.any (fun l => l.product_id == pid) then incFirst s.cartLines pid
      else s.cartLines ++ [{ product_id := pid, quantity := 1 }]
    .ok (recalc_cart_quantity { s with cartLines := lines })

/-- View `cart_inc` (views.py:440-445): delegates to `add_to_cart`. -/
def cart_inc (s : State) (pid : Nat) : Except WebError State :=
  add_to_cart s pid

/-- The body of `cart_dec` acting on the line list: decrement the first
matching line by 1, deleting it when the result is `<= 0`. -/
def decFirst : List CartItem → Nat → List CartItem
  | [], _ => []
  | l :: rest, pid =>
    if l.product_id == pid then
      if l.quantity - 1 ≤ 0 then rest
      else { l with quantity := l.quantity - 1 } :: rest
    else l :: decFirst rest pid

/-- View `cart_dec(request, product_id)` (views.py:448-469): 404 if the
product does not exist; if a line exists decrement it (deleting at `<= 0`),
otherwise do nothing; always recompute the cached cart quantity. -/
def cart_dec (s : State) (pid : Nat) : Except WebError State :=
  match findProduct s pid with
  | none => .error .notFound
  | some _ =>
    .ok (recalc_cart_quantity { s with cartLines := decFirst s.cartLines pid })

/-- View `cart_remove(request, product_id)` (views.py:472-485): delete every
line of this product (`filter(cart=cart, product_id=...).delete()`; note the
view does not look the product up) and recompute the cached quantity. -/
def cart_remove (s : State) (pid : Nat) : State :=
  recalc_cart_quantity { s with cartLines := s.cartLines.filter (fun l => l.product_id != pid) }

/-- Drop leading whitespace characters from a character list. -/
def dropLeadingWs : List Char → List Char
  | [] => []
  | c :: rest => if c.isWhitespace then dropLeadingWs rest else c :: rest

/-- Python `str.strip()` as used on every POST field: remove leading and
trailing whitespace.  (Defined by structural recursion on the character
list so that concrete instances evaluate.) -/
def strip (str : String) : String :=
  ⟨(dropLeadingWs (dropLeadingWs str.data).reverse).reverse⟩

/-- Subtotal `item.product.price * item.quantity` of one cart line in the
`checkout` total loop (views.py:577-579).  The `product` foreign key of a
`CartItem` is non-nullable with CASCADE delete, so the lookup always succeeds
on reachable states; the unreachable `none` branch contributes 0. -/
def lineSubtotal (s : State) (l : CartItem) : Int :=
  match findProduct s l.product_id with
  | some p => p.price * l.quantity
  | none => 0

/-- The checkout total `total = Σ item.product.price * item.quantity` over
the current cart lines. -/
def cartTotal (s : State) : Int :=
  (s.cartLines.map (lineSubtotal s)).sum

/-- One `OrderItem.objects.create(...)` of the checkout loop
(views.py:629-638): snapshot the line's product name, current unit price,
quantity and image name by value.  The cached `product` reference of a
`CartItem` can never be gone (CASCADE delete removes the line with the
product), so the `none` branch is unreachable; it is completed as a skip,
matching the view's guard `if (item.product and item.product.image)`. -/
def snapshotItem (s : State) (oid : Nat) (l : CartItem) : Option OrderItem :=
  match findProduct s l.product_id with
  | some p =>
    some { order_id := oid, product_id := some l.product_id,
           product_name := p.product_name, unit_price := p.price,
           quantity := l.quantity, product_image_name := p.image.getD "" }
  | none => none

/-- Total version of `snapshotItem`, used to state that a successful checkout
creates exactly one snapshot per cart line; it agrees with `snapshotItem`
whenever the line's product exists. -/
def checkoutSnapshot (s : State) (oid : Nat) (l : CartItem) : OrderItem :=
  match findProduct s l.product_id with
  | some p =>
    { order_id := oid, product_id := some l.product_id,
      product_name := p.product_name, unit_price := p.price,
      quantity := l.quantity, product_image_name := p.image.getD "" }
  | none =>
    { order_id := oid, product_id := none, product_name := "",
      unit_price := 0, quantity := l.quantity, product_image_name := "" }

/-- Observable outcome of a POST to `checkout`: which page/branch answered,
and for the insufficient-funds page the balance shown to the caller
(`balance_override=wallet.balance`, the locked authoritative read). -/
inductive CheckoutOutcome where
  | emptyCart
  | invalidInput
  | insufficientFunds (shownBalance : Int)
  | success (order_id : Nat)
  deriving Repr, DecidableEq

/-- View `checkout(request)`, POST branch (views.py:569-644): compute the
total over the current cart lines, validate (empty cart, then trimmed
receiver fields), then atomically lock the wallet, check funds, debit, create
the `Order` (status PAID, receiver snapshot) and one `OrderItem` per cart
line, delete the cart lines and zero the cached cart quantity.  Every error
branch renders a page and leaves the state unchanged. -/
def checkout (s : State) (rname rphone raddr : String) : CheckoutOutcome × State :=
  let total := cartTotal s
  let receiver_name := strip rname
  let receiver_phone := strip rphone
  let receiver_address := strip raddr
  if total ≤ 0 then (.emptyCart, s)
  else if receiver_name = "" ∨ receiver_phone = "" ∨ receiver_address = "" then
    (.invalidInput, s)
  else if s.walletBalance < total then (.insufficientFunds s.walletBalance, s)
  else
    let oid := s.nextOrderId
    let order : Order :=
      { order_id := oid, total_amount := total, status := "PAID",
        receiver_name := receiver_name, receiver_phone := receiver_phone,
        receiver_address := receiver_address }
    (.success oid,
     { s with walletBalance := s.walletBalance - total,
              orders := s.orders ++ [order],
              orderItems := s.orderItems ++ s.cartLines.filterMap (snapshotItem s oid),
              cartLines := [],
              cartQuantity := 0,
              nextOrderId := oid + 1 })

/-- Outcome of a POST to `wallet_topup`. -/
inductive TopupOutcome where
  | invalidAmount
  | ok
  deriving Repr, DecidableEq

/-- View `wallet_topup(request)`, POST branch (views.py:682-712): reject a
parsed amount `<= 0` with an error page (state unchanged), otherwise credit
the wallet under the row lock. -/
def wallet_topup (s : State) (amount : Int) : TopupOutcome × State :=
  if amount ≤ 0 then (.invalidAmount, s)
  else (.ok, { s with walletBalance := s.walletBalance + amount })

/-- View `admin_product_edit` (views.py:903-993) restricted to the fields of
the embedded `Product` record: 404 if the product does not exist, error page
(state unchanged) when the trimmed name is empty or the price is `<= 0`,
otherwise overwrite the product's name and price in place.  Category and
gallery bookkeeping touch only entities outside the modelled state and are
omitted; order rows are never touched by the view. -/
def admin_product_edit (s : State) (pid : Nat) (name : String) (price : Int) :
    Except WebError State :=
  match findProduct s pid with
  | none => .error .notFound
  | some _ =>
    if strip name = "" ∨ price ≤ 0 then .error .invalidInput
    else
      .ok { s with catalog := s.catalog.map (fun p =>
        if p.product_id == pid then { p with product_name := strip name, price := price }
        else p) }

/-- View `admin_product_delete` (views.py:996-1004) together with the
`on_delete` rules of `models.py`: `p.delete()` removes the catalog row,
CASCADE-deletes the `CartItem` rows of this product (without recomputing the
cached cart quantity — no view code runs) and SET_NULLs the `product`
reference of its `OrderItem` rows, leaving their copied fields untouched. -/
def admin_product_delete (s : State) (pid : Nat) : Except WebError State :=
  match findProduct s pid with
  | none => .error .notFound
  | some _ =>
    .ok { s with
      catalog := s.catalog.filter (fun p => p.product_id != pid),
      cartLines := s.cartLines.filter (fun l => l.product_id != pid),
      orderItems := s.orderItems.map (fun oi =>
        if oi.product_id == some pid then { oi with product_id := none } else oi) }

/-- A cart-affecting user operation, for stating invariants over arbitrary
operation sequences. -/
inductive CartOp where
  | addOp (pid : Nat)
  | incOp (pid : Nat)
  | decOp (pid : Nat)
  | removeOp (pid : Nat)
  | checkoutOp (rname rphone raddr : String)
  deriving Repr, DecidableEq

/-- Run one cart operation; a 404 answer leaves the state unchanged (the
view returns before touching anything). -/
def applyOp (s : State) : CartOp → State
  | .addOp pid =>
    match add_to_cart s pid with
    | .ok s' => s'
    | .error _ => s
  | .incOp pid =>
    match cart_inc s pid with
    | .ok s' => s'
    | .error _ => s
  | .decOp pid =>
    match cart_dec s pid with
    | .ok s' => s'
    | .error _ => s
  | .removeOp pid => cart_remove s pid
  | .checkoutOp rname rphone raddr => (checkout s rname rphone raddr).2

/-- Run `admin_product_edit`, keeping the state on an error answer. -/
def runProductEdit (s : State) (pid : Nat) (name : String) (price : Int) : State :=
  match admin_product_edit s pid name price with
  | .ok s' => s'
  | .error _ => s

/-- Run `admin_product_delete`, keeping the state on an error answer. -/
def runProductDelete (s : State) (pid : Nat) : State :=
  match admin_product_delete s pid with
  | .ok s' => s'
  | .error _ => s

/-- The denormalized-counter invariant: `Cart.quantity` equals the live sum
of the cart's line quantities. -/
def CartQuantityInv (s : State) : Prop :=
  s.cartQuantity = cartLinesSum s.cartLines

instance : DecidablePred CartQuantityInv := fun s =>
  inferInstanceAs (Decidable (s.cartQuantity = cartLinesSum s.cartLines))

/-- Every cart line has a positive quantity. -/
def PosLines (s : State) : Prop :=
  ∀ l ∈ s.cartLines, 0 < l.quantity

instance : DecidablePred PosLines := fun s =>
  inferInstanceAs (Decidable (∀ l ∈ s.cartLines, 0 < l.quantity))

/-- Referential integrity of the non-nullable CASCADE foreign key
`CartItem.product`: every cart line's product is in the catalog. -/
def WFLines (s : State) : Prop :=
  ∀ l ∈ s.cartLines, (findProduct s l.product_id).isSome

instance : DecidablePred WFLines := fun s =>
  inferInstanceAs (Decidable (∀ l ∈ s.cartLines, (findProduct s l.product_id).isSome))

/-- The copied-by-value fields of an `OrderItem` (everything except the weak
`product` reference and the order key). -/
def snapshotFields (oi : OrderItem) : String × Int × Int × String :=
  (oi.product_name, oi.unit_price, oi.quantity, oi.product_image_name)

/-! ### Generic lemmas about the operations -/

theorem recalc_cart_quantity_inv (s : State) : CartQuantityInv (recalc_cart_quantity s) := rfl

theorem applyOp_cartQuantityInv (s : State) (h : CartQuantityInv s) (op : CartOp) :
    CartQuantityInv (applyOp s op) := by
  cases op with
  | addOp pid =>
    cases hfp : findProduct s pid with
    | none => simpa [applyOp, add_to_cart, hfp] using h
    | some p =>
      have hadd : ∃ t, add_to_cart s pid = Except.ok (recalc_cart_quantity t) := by
        simp only [add_to_cart, hfp]
        exact ⟨_, rfl⟩
      obtain ⟨t, ht⟩ := hadd
      simp only [applyOp, ht]
      exact recalc_cart_quantity_inv t
  | incOp pid =>
    cases hfp : findProduct s pid with
    | none => simpa [applyOp, cart_inc, add_to_cart, hfp] using h
    | some p =>
      have hadd : ∃ t, cart_inc s pid = Except.ok (recalc_cart_quantity t) := by
        simp only [cart_inc, add_to_cart, hfp]
        exact ⟨_, rfl⟩
      obtain ⟨t, ht⟩ := hadd
      simp only [applyOp, ht]
      exact recalc_cart_quantity_inv t
  | decOp pid =>
    cases hfp : findProduct s pid with
    | none => simpa [applyOp, cart_dec, hfp] using h
    | some p =>
      have hdec : ∃ t, cart_dec s pid = Except.ok (recalc_cart_quantity t) := by
        simp only [cart_dec, hfp]
        exact ⟨_, rfl⟩
      obtain ⟨t, ht⟩ := hdec
      simp only [applyOp, ht]
      exact recalc_cart_quantity_inv t
  | removeOp pid => exact recalc_cart_quantity_inv _
  | checkoutOp rn rp ra =>
    simp only [applyOp, checkout]
    split_ifs with h1 h2 h3
    · exact h
    · exact h
    · exact h
    · rfl

/-- Claim C4: after every cart operation (add, increment, decrement, remove,
checkout) the cached `Cart.quantity` equals the sum of the quantities of the
current cart lines; starting from any state satisfying the invariant, every
sequence of operations preserves it (the counter is recomputed from the
lines after each mutation, never drifted). -/
theorem cart_quantity_invariant (s : State) (h : CartQuantityInv s) (ops : List CartOp) :
    CartQuantityInv (ops.foldl applyOp s) := by
  induction ops generalizing s with
  | nil => exact h
  | cons op rest ih => exact ih (applyOp s op) (applyOp_cartQuantityInv s h op)

theorem mem_incFirst (lines : List CartItem) (pid : Nat) (l : CartItem)
    (hl : l ∈ incFirst lines pid) :
    l ∈ lines ∨ ∃ m ∈ lines, l = { m with quantity := m.quantity + 1 } := by
  induction lines with
  | nil => simp [incFirst] at hl
  | cons a rest ih =>
    by_cases ha : (a.product_id == pid) = true
    · simp only [incFirst, if_pos ha] at hl
      rcases List.mem_cons.mp hl with h1 | h2
      · exact Or.inr ⟨a, List.mem_cons_self a rest, h1⟩
      · exact Or.inl (List.mem_cons_of_mem a h2)
    · simp only [incFirst, if_neg ha] at hl
      rcases List.mem_cons.mp hl with h1 | h2
      · exact Or.inl (h1 ▸ List.mem_cons_self a rest)
      · rcases ih h2 with h3 | ⟨m, hm, he⟩
        · exact Or.inl (List.mem_cons_of_mem a h3)
        · exact Or.inr ⟨m, List.mem_cons_of_mem a hm, he⟩

theorem mem_decFirst (lines : List CartItem) (pid : Nat) (l : CartItem)
    (hl : l ∈ decFirst lines pid) :
    l ∈ lines ∨ ∃ m ∈ lines, l = { m with quantity := m.quantity - 1 } ∧ ¬ m.quantity - 1 ≤ 0 := by
  induction lines with
  | nil => simp [decFirst] at hl
  | cons a rest ih =>
    by_cases ha : (a.product_id == pid) = true
    · simp only [decFirst, if_pos ha] at hl
      by_cases hq : a.quantity - 1 ≤ 0
      · rw [if_pos hq] at hl
        exact Or.inl (List.mem_cons_of_mem a hl)
      · rw [if_neg hq] at hl
        rcases List.mem_cons.mp hl with h1 | h2
        · exact Or.inr ⟨a, List.mem_cons_self a rest, h1, hq⟩
        · exact Or.inl (List.mem_cons_of_mem a h2)
    · simp only [decFirst, if_neg ha] at hl
      rcases List.mem_cons.mp hl with h1 | h2
      · exact Or.inl (h1 ▸ List.mem_cons_self a rest)
      · rcases ih h2 with h3 | ⟨m, hm, he⟩
        · exact Or.inl (List.mem_cons_of_mem a h3)
        · exact Or.inr ⟨m, List.mem_cons_of_mem a hm, he⟩

theorem incFirst_spec (pid : Nat) (pre post : List CartItem) (l : CartItem)
    (hpre : ∀ m ∈ pre, m.product_id ≠ pid) (hl : l.product_id = pid) :
    incFirst (pre ++ l :: post) pid = pre ++ { l with quantity := l.quantity + 1 } :: post := by
  induction pre with
  | nil =>
    have hb : (l.product_id == pid) = true := by simp [hl]
    simp only [List.nil_append, incFirst, if_pos hb]
  | cons a rest ih =>
    have ha : ¬ (a.product_id == pid) = true := by
      simp [hpre a (List.mem_cons_self a rest)]
    simp only [List.cons_append, incFirst, if_neg ha, List.append_eq]
    rw [ih (fun m hm => hpre m (List.mem_cons_of_mem a hm))]

theorem decFirst_spec (pid : Nat) (pre post : List CartItem) (l : CartItem)
    (hpre : ∀ m ∈ pre, m.product_id ≠ pid) (hl : l.product_id = pid) :
    decFirst (pre ++ l :: post) pid =
      if l.quantity - 1 ≤ 0 then pre ++ post
      else pre ++ { l with quantity := l.quantity - 1 } :: post := by
  induction pre with
  | nil =>
    have hb : (l.product_id == pid) = true := by simp [hl]
    simp only [List.nil_append, decFirst, if_pos hb]
  | cons a rest ih =>
    have ha : ¬ (a.product_id == pid) = true := by
      simp [hpre a (List.mem_cons_self a rest)]
    simp only [List.cons_append, decFirst, if_neg ha, List.append_eq]
    rw [ih (fun m hm => hpre m (List.mem_cons_of_mem a hm))]
    by_cases hq : l.quantity - 1 ≤ 0 <;> simp [hq]

theorem decFirst_no_match (lines : List CartItem) (pid : Nat)
    (h : ∀ m ∈ lines, m.product_id ≠ pid) : decFirst lines pid = lines := by
  induction lines with
  | nil => rfl
  | cons a rest ih =>
    have ha : ¬ (a.product_id == pid) = true := by
      simp [h a (List.mem_cons_self a rest)]
    simp only [decFirst, if_neg ha]
    rw [ih (fun m hm => h m (List.mem_cons_of_mem a hm))]

theorem recalc_eq_self (s : State) (h : CartQuantityInv s) : recalc_cart_quantity s = s := by
  unfold recalc_cart_quantity
  rw [← h]

theorem find?_filter_ne (catalog : List Product) (pid x : Nat) (hx : x ≠ pid) :
    (catalog.filter (fun p => p.product_id != pid)).find? (fun p => p.product_id == x) =
      catalog.find? (fun p => p.product_id == x) := by
  induction catalog with
  | nil => rfl
  | cons a rest ih =>
    by_cases ha : a.product_id = pid
    · have h1 : (a.product_id != pid) = false := by simp [ha]
      have h2 : (a.product_id == x) = false := by
        subst ha
        simp
        omega
      simp only [List.filter_cons, h1, Bool.false_eq_true, if_false, ite_false]
      rw [List.find?_cons_of_neg _ (by simp [h2]), ih]
    · have h1 : (a.product_id != pid) = true := by simp [ha]
      by_cases hax : a.product_id = x
      · have h2 : (a.product_id == x) = true := by simp [hax]
        simp only [List.filter_cons, h1, if_true, ite_true]
        rw [List.find?_cons_of_pos _ (by simp [h2]), List.find?_cons_of_pos _ (by simp [h2])]
      · have h2 : (a.product_id == x) = false := by simp [hax]
        simp only [List.filter_cons, h1, if_true, ite_true]
        rw [List.find?_cons_of_neg _ (by simp [h2]), List.find?_cons_of_neg _ (by simp [h2]), ih]

theorem snapshot_total (s : State) (oid : Nat) (lines : List CartItem)
    (h : ∀ l ∈ lines, (findProduct s l.product_id).isSome) :
    lines.filterMap (snapshotItem s oid) = lines.map (checkoutSnapshot s oid) := by
  induction lines with
  | nil => rfl
  | cons l rest ih =>
    have hl : (findProduct s l.product_id).isSome := h l (List.mem_cons_self l rest)
    obtain ⟨p, hp⟩ := Option.isSome_iff_exists.mp hl
    have hrest : ∀ m ∈ rest, (findProduct s m.product_id).isSome := by
      intro m hm
      exact h m (List.mem_cons_of_mem l hm)
    simp [List.filterMap_cons, snapshotItem, checkoutSnapshot, hp, ih hrest]

theorem lineSubtotal_pos (s : State) (l : CartItem)
    (hWFl : (findProduct s l.product_id).isSome)
    (hq : 0 < l.quantity)
    (hprice : ∀ p ∈ s.catalog, 0 < p.price) :
    0 < lineSubtotal s l := by
  obtain ⟨p, hp⟩ := Option.isSome_iff_exists.mp hWFl
  have hmem : p ∈ s.catalog := List.mem_of_find?_eq_some hp
  unfold lineSubtotal
  rw [hp]
  exact mul_pos (hprice p hmem) hq

theorem cartTotal_pos (s : State) (hne : s.cartLines ≠ [])
    (hWF : WFLines s) (hpos : PosLines s)
    (hprice : ∀ p ∈ s.catalog, 0 < p.price) :
    0 < cartTotal s := by
  unfold cartTotal
  cases hlines : s.cartLines with
  | nil => exact absurd hlines hne
  | cons a rest =>
    have ha : a ∈ s.cartLines := by
      rw [hlines]
      exact List.mem_cons_self a rest
    simp only [List.map_cons, List.sum_cons]
    have h1 : 0 < lineSubtotal s a := lineSubtotal_pos s a (hWF a ha) (hpos a ha) hprice
    have h2 : 0 ≤ (rest.map (lineSubtotal s)).sum := by
      apply List.sum_nonneg
      intro x hx
      rcases List.mem_map.mp hx with ⟨m, hm, he⟩
      have hmem : m ∈ s.cartLines := by
        rw [hlines]
        exact List.mem_cons_of_mem a hm
      rw [← he]
      exact le_of_lt (lineSubtotal_pos s m (hWF m hmem) (hpos m hmem) hprice)
    omega

/-- Claim C1: for an account whose cart is non-empty (its lines have the
positive quantities the cart operations maintain and the catalog prices are
positive as the admin forms enforce), with non-empty trimmed receiver fields
and wallet balance at least the cart total, checkout succeeds and
atomically: debits the wallet by the total, empties the cart and zeroes the
cached quantity, appends exactly one PAID `Order` carrying the total and the
trimmed receiver snapshot, appends exactly one `OrderItem` snapshot per
prior cart line (product name, unit price, quantity, image name), and
returns the new order's id to the caller. -/
theorem checkout_success (s : State) (rn rp ra : String)
    (hWF : WFLines s)
    (hne : s.cartLines ≠ [])
    (hpos : PosLines s)
    (hprice : ∀ p ∈ s.catalog, 0 < p.price)
    (hname : strip rn ≠ "") (hphone : strip rp ≠ "") (haddr : strip ra ≠ "")
    (hbal : cartTotal s ≤ s.walletBalance) :
    checkout s rn rp ra =
      (.success s.nextOrderId,
       { s with
         walletBalance := s.walletBalance - cartTotal s,
         orders := s.orders ++
           [{ order_id := s.nextOrderId, total_amount := cartTotal s, status := "PAID",
              receiver_name := strip rn, receiver_phone := strip rp,
              receiver_address := strip ra }],
         orderItems := s.orderItems ++ s.cartLines.map (checkoutSnapshot s s.nextOrderId),
         cartLines := [],
         cartQuantity := 0,
         nextOrderId := s.nextOrderId + 1 }) := by
  have htotal : 0 < cartTotal s := cartTotal_pos s hne hWF hpos hprice
  have h1 : ¬ cartTotal s ≤ 0 := by omega
  have h2 : ¬ (strip rn = "" ∨ strip rp = "" ∨ strip ra = "") := by
    simp [hname, hphone, haddr]
  have h3 : ¬ s.walletBalance < cartTotal s := by omega
  simp only [checkout, h1, h2, h3, if_false, ite_false]
  rw [snapshot_total s s.nextOrderId s.cartLines hWF]

/-- Claim C2: a checkout with a positive cart total and non-empty trimmed
receiver fields but insufficient wallet balance fails with InsufficientFunds
showing the authoritative current balance, and leaves the entire state —
wallet balance, cart lines, cached cart quantity, orders, order items —
unchanged. -/
theorem checkout_insufficient (s : State) (rn rp ra : String)
    (htotal : 0 < cartTotal s)
    (hname : strip rn ≠ "") (hphone : strip rp ≠ "") (haddr : strip ra ≠ "")
    (hbal : s.walletBalance < cartTotal s) :
    checkout s rn rp ra = (.insufficientFunds s.walletBalance, s) := by
  have h1 : ¬ cartTotal s ≤ 0 := by omega
  have h2 : ¬ (strip rn = "" ∨ strip rp = "" ∨ strip ra = "") := by
    simp [hname, hphone, haddr]
  simp only [checkout, h1, h2, hbal, if_false, ite_false, if_true, ite_true]

/-- Claim C3: checkout validation runs before any mutation: an empty cart
(total `<= 0`) fails with EmptyCart and otherwise an empty trimmed receiver
field fails with InvalidInput, in both cases with the state unchanged and
with an outcome independent of the wallet balance (the wallet is never read
under lock nor debited before validation passes). -/
theorem checkout_validation (s : State) (rn rp ra : String) :
    (cartTotal s ≤ 0 →
      checkout s rn rp ra = (.emptyCart, s) ∧
      ∀ b : Int, (checkout { s with walletBalance := b } rn rp ra).1 = .emptyCart) ∧
    (0 < cartTotal s → (strip rn = "" ∨ strip rp = "" ∨ strip ra = "") →
      checkout s rn rp ra = (.invalidInput, s) ∧
      ∀ b : Int, (checkout { s with walletBalance := b } rn rp ra).1 = .invalidInput) := by
  have hct : ∀ b : Int, cartTotal { s with walletBalance := b } = cartTotal s := fun _ => rfl
  constructor
  · intro h0
    constructor
    · simp only [checkout, h0, if_true, ite_true]
    · intro b
      have h0b : cartTotal { s with walletBalance := b } ≤ 0 := by rw [hct]; exact h0
      simp only [checkout, h0b, if_true, ite_true]
  · intro h0 hempty
    have h1 : ¬ cartTotal s ≤ 0 := by omega
    constructor
    · simp only [checkout, h1, hempty, if_false, ite_false, if_true, ite_true]
    · intro b
      have h1b : ¬ cartTotal { s with walletBalance := b } ≤ 0 := by rw [hct]; exact h1
      simp only [checkout, h1b, hempty, if_false, ite_false, if_true, ite_true]

theorem applyOp_posLines (s : State) (h : PosLines s) (op : CartOp) :
    PosLines (applyOp s op) := by
  cases op with
  | addOp pid =>
    cases hfp : findProduct s pid with
    | none => simpa [applyOp, add_to_cart, hfp] using h
    | some p =>
      simp only [applyOp, add_to_cart, hfp]
      intro l hl
      simp only [recalc_cart_quantity] at hl
      by_cases hany : s.cartLines.any (fun m => m.product_id == pid) = true
      · rw [if_pos hany] at hl
        rcases mem_incFirst _ _ _ hl with h1 | ⟨m, hm, he⟩
        · exact h l h1
        · have := h m hm
          rw [he]
          simp only
          omega
      · rw [if_neg hany] at hl
        rcases List.mem_append.mp hl with h1 | h2
        · exact h l h1
        · simp only [List.mem_singleton] at h2
          rw [h2]
          exact Int.one_pos
  | incOp pid =>
    cases hfp : findProduct s pid with
    | none => simpa [applyOp, cart_inc, add_to_cart, hfp] using h
    | some p =>
      simp only [applyOp, cart_inc, add_to_cart, hfp]
      intro l hl
      simp only [recalc_cart_quantity] at hl
      by_cases hany : s.cartLines.any (fun m => m.product_id == pid) = true
      · rw [if_pos hany] at hl
        rcases mem_incFirst _ _ _ hl with h1 | ⟨m, hm, he⟩
        · exact h l h1
        · have := h m hm
          rw [he]
          simp only
          omega
      · rw [if_neg hany] at hl
        rcases List.mem_append.mp hl with h1 | h2
        · exact h l h1
        · simp only [List.mem_singleton] at h2
          rw [h2]
          exact Int.one_pos
  | decOp pid =>
    cases hfp : findProduct s pid with
    | none => simpa [applyOp, cart_dec, hfp] using h
    | some p =>
      simp only [applyOp, cart_dec, hfp]
      intro l hl
      simp only [recalc_cart_quantity] at hl
      rcases mem_decFirst _ _ _ hl with h1 | ⟨m, _, he, hq⟩
      · exact h l h1
      · rw [he]
        simp only
        omega
  | removeOp pid =>
    intro l hl
    exact h l (List.mem_of_mem_filter hl)
  | checkoutOp rn rp ra =>
    simp only [applyOp, checkout]
    split_ifs with h1 h2 h3
    · exact h
    · exact h
    · exact h
    · intro l hl
      exact absurd hl (List.not_mem_nil l)

/-- Claim C5: `cart_dec` decrements the first cart line of the product by
exactly 1 and deletes the line entirely when the result is `<= 0` (in
particular a line with quantity 1 is deleted), and starting from a cart
whose lines are all positive, no sequence of cart operations ever leaves a
line with quantity `<= 0`. -/
theorem decrement_deletes_nonpositive (s : State) (h : PosLines s) :
    (∀ ops : List CartOp, PosLines (ops.foldl applyOp s)) ∧
    (∀ pid : Nat, ∀ pre post : List CartItem, ∀ l : CartItem,
      (∀ m ∈ pre, m.product_id ≠ pid) → l.product_id = pid →
      decFirst (pre ++ l :: post) pid =
        if l.quantity - 1 ≤ 0 then pre ++ post
        else pre ++ { l with quantity := l.quantity - 1 } :: post) := by
  constructor
  · intro ops
    induction ops generalizing s with
    | nil => exact h
    | cons op rest ih => exact ih (applyOp s op) (applyOp_posLines s h op)
  · intro pid pre post l hpre hl
    exact decFirst_spec pid pre post l hpre hl

/-- Claim C6: for an existing product, `add_to_cart` increments the quantity
of the already-existing cart line by exactly 1 without creating a new line,
or creates a single new line with quantity exactly 1 when no line for the
product exists; no upper bound is enforced, and the cached cart quantity is
recomputed from the lines afterwards. -/
theorem add_to_cart_spec (s : State) (pid : Nat) (p : Product)
    (hp : findProduct s pid = some p) :
    (∀ pre post : List CartItem, ∀ l : CartItem,
      s.cartLines = pre ++ l :: post → (∀ m ∈ pre, m.product_id ≠ pid) →
      l.product_id = pid →
      add_to_cart s pid = Except.ok (recalc_cart_quantity
        { s with cartLines := pre ++ { l with quantity := l.quantity + 1 } :: post })) ∧
    ((∀ m ∈ s.cartLines, m.product_id ≠ pid) →
      add_to_cart s pid = Except.ok (recalc_cart_quantity
        { s with cartLines := s.cartLines ++ [{ product_id := pid, quantity := 1 }] })) := by
  constructor
  · intro pre post l hlines hpre hl
    have hany : s.cartLines.any (fun m => m.product_id == pid) = true := by
      rw [hlines]
      simp [List.any_append, hl]
    simp only [add_to_cart, hp, hany, if_true, ite_true]
    rw [hlines, incFirst_spec pid pre post l hpre hl]
  · intro hmiss
    have hany : s.cartLines.any (fun m => m.product_id == pid) = false := by
      rw [List.any_eq_false]
      intro m hm
      simpa using hmiss m hm
    simp only [add_to_cart, hp, hany, Bool.false_eq_true, if_false, ite_false]

/-- Claim C10: decrement or remove for an existing product that has no line
in the cart is a no-op: when the cached quantity already equals the line sum,
`cart_dec` answers success with the state unchanged and `cart_remove` leaves
the state unchanged (the cached quantity is recomputed to the same sum). -/
theorem cart_noop_missing_line (s : State) (pid : Nat) (p : Product)
    (hp : findProduct s pid = some p)
    (hmiss : ∀ l ∈ s.cartLines, l.product_id ≠ pid)
    (hinv : CartQuantityInv s) :
    cart_dec s pid = Except.ok s ∧ cart_remove s pid = s := by
  have hdec : decFirst s.cartLines pid = s.cartLines := decFirst_no_match _ _ hmiss
  have hfil : s.cartLines.filter (fun l => l.product_id != pid) = s.cartLines := by
    rw [List.filter_eq_self]
    intro m hm
    simpa using hmiss m hm
  constructor
  · simp only [cart_dec, hp, hdec]
    rw [show { s with cartLines := s.cartLines } = s from rfl, recalc_eq_self s hinv]
  · simp only [cart_remove, hfil]
    rw [show { s with cartLines := s.cartLines } = s from rfl, recalc_eq_self s hinv]

/-- Claim C7: the copied-by-value fields of every historical `OrderItem`
(product name, unit price, quantity, image name) are untouched by a later
`admin_product_edit` (which also leaves the order-item rows entirely
unchanged) and by a later `admin_product_delete` (which only SET_NULLs the
weak product reference); orders are untouched as well. -/
theorem orderitems_frozen (s : State) (pid : Nat) (name : String) (price : Int) :
    (runProductEdit s pid name price).orderItems = s.orderItems ∧
    (runProductEdit s pid name price).orders = s.orders ∧
    (runProductDelete s pid).orderItems.map snapshotFields = s.orderItems.map snapshotFields ∧
    (runProductDelete s pid).orders = s.orders := by
  refine ⟨?_, ?_, ?_, ?_⟩
  · unfold runProductEdit admin_product_edit
    cases findProduct s pid with
    | none => rfl
    | some p =>
      by_cases hv : strip name = "" ∨ price ≤ 0
      · rw [if_pos hv]
      · rw [if_neg hv]
  · unfold runProductEdit admin_product_edit
    cases findProduct s pid with
    | none => rfl
    | some p =>
      by_cases hv : strip name = "" ∨ price ≤ 0
      · rw [if_pos hv]
      · rw [if_neg hv]
  · unfold runProductDelete admin_product_delete
    cases findProduct s pid with
    | none => rfl
    | some p =>
      show (s.orderItems.map _).map snapshotFields = s.orderItems.map snapshotFields
      rw [List.map_map]
      apply List.map_congr_left
      intro oi _
      by_cases hoi : (oi.product_id == some pid) = true <;>
        simp [Function.comp, snapshotFields, hoi]
  · unfold runProductDelete admin_product_delete
    cases findProduct s pid with
    | none => rfl
    | some p => rfl

theorem runProductDelete_ok (s : State) (pid : Nat) (p : Product)
    (hp : findProduct s pid = some p) :
    runProductDelete s pid = { s with
      catalog := s.catalog.filter (fun q => q.product_id != pid),
      cartLines := s.cartLines.filter (fun l => l.product_id != pid),
      orderItems := s.orderItems.map (fun oi =>
        if oi.product_id == some pid then { oi with product_id := none } else oi) } := by
  unfold runProductDelete admin_product_delete
  rw [hp]

/-- Claim C8: after a product referenced by a cart line is deleted, the
CASCADE rule removes that cart line, so a later checkout proceeds without
that line: no surviving line references the deleted product, every surviving
line still resolves its product (so the snapshot loop produces exactly one
`OrderItem` per surviving line and skips nothing), and no produced snapshot
references the deleted product. -/
theorem checkout_after_delete (s : State) (pid : Nat) (p : Product)
    (hWF : WFLines s) (hp : findProduct s pid = some p) :
    (∀ l ∈ (runProductDelete s pid).cartLines, l.product_id ≠ pid) ∧
    WFLines (runProductDelete s pid) ∧
    (∀ oid : Nat,
      (runProductDelete s pid).cartLines.filterMap
          (snapshotItem (runProductDelete s pid) oid) =
        (runProductDelete s pid).cartLines.map
          (checkoutSnapshot (runProductDelete s pid) oid) ∧
      ∀ oi ∈ (runProductDelete s pid).cartLines.filterMap
          (snapshotItem (runProductDelete s pid) oid),
        oi.product_id ≠ some pid) := by
  rw [runProductDelete_ok s pid p hp]
  have hmem : ∀ l ∈ s.cartLines.filter (fun l => l.product_id != pid),
      l ∈ s.cartLines ∧ l.product_id ≠ pid := by
    intro l hl
    have h1 := List.of_mem_filter hl
    have h2 := List.mem_of_mem_filter hl
    simp only [bne_iff_ne, ne_eq] at h1
    exact ⟨h2, h1⟩
  have hwf' : ∀ l ∈ s.cartLines.filter (fun l => l.product_id != pid),
      (findProduct { s with
        catalog := s.catalog.filter (fun q => q.product_id != pid),
        cartLines := s.cartLines.filter (fun l => l.product_id != pid),
        orderItems := s.orderItems.map (fun oi =>
          if oi.product_id == some pid then { oi with product_id := none } else oi) }
        l.product_id).isSome := by
    intro l hl
    obtain ⟨hmemL, hne⟩ := hmem l hl
    show ((s.catalog.filter (fun q => q.product_id != pid)).find?
      (fun q => q.product_id == l.product_id)).isSome
    rw [find?_filter_ne s.catalog pid l.product_id hne]
    exact hWF l hmemL
  refine ⟨fun l hl => (hmem l hl).2, hwf', fun oid => ⟨?_, ?_⟩⟩
  · exact snapshot_total _ oid _ hwf'
  · intro oi hoi
    rcases List.mem_filterMap.mp hoi with ⟨l, hl, hsnap⟩
    obtain ⟨_, hne⟩ := hmem l hl
    obtain ⟨q, hfq⟩ := Option.isSome_iff_exists.mp (hwf' l hl)
    unfold snapshotItem at hsnap
    rw [hfq] at hsnap
    injection hsnap with hsnap2
    subst hsnap2
    intro hcontra
    exact hne (Option.some_injective _ hcontra)

/-- Claim C9: a wallet top-up with non-positive parsed amount fails with
InvalidAmount leaving the balance (and all state) unchanged; with a positive
amount it increases the balance by exactly that amount and changes nothing
else. -/
theorem wallet_topup_spec (s : State) (amount : Int) :
    (amount ≤ 0 → wallet_topup s amount = (.invalidAmount, s)) ∧
    (0 < amount →
      wallet_topup s amount = (.ok, { s with walletBalance := s.walletBalance + amount })) := by
  constructor
  · intro hle
    simp [wallet_topup, hle]
  · intro hpos
    have : ¬ amount ≤ 0 := by omega
    simp [wallet_topup, this]

/-! ### Concrete witness states (the spec's concrete scenario, in cents) -/

/-- Product A of the spec scenario: price 10.00 (1000 cents). -/
def pA : Product :=
  { product_id := 1, product_name := "A", price := 1000, image := some "a.png" }

/-- Product B of the spec scenario: price 5.50 (550 cents). -/
def pB : Product :=
  { product_id := 2, product_name := "B", price := 550, image := none }

/-- A third catalog product kept out of the cart. -/
def pC : Product :=
  { product_id := 3, product_name := "C", price := 700, image := none }

/-- Scenario state: cart [A qty 2, B qty 1], wallet balance 30.00. -/
def S1 : State :=
  { catalog := [pA, pB, pC], cartLines := [⟨1, 2⟩, ⟨2, 1⟩], cartQuantity := 3,
    walletBalance := 3000, nextOrderId := 1, orders := [], orderItems := [] }

/-- Scenario state with an empty cart. -/
def S0 : State :=
  { catalog := [pA, pB, pC], cartLines := [], cartQuantity := 0,
    walletBalance := 3000, nextOrderId := 1, orders := [], orderItems := [] }

/-- Scenario state with insufficient balance 20.00. -/
def S2 : State :=
  { catalog := [pA, pB, pC], cartLines := [⟨1, 2⟩, ⟨2, 1⟩], cartQuantity := 3,
    walletBalance := 2000, nextOrderId := 1, orders := [], orderItems := [] }

/-- Witness for C1 at the spec's concrete scenario: total 25.50 (2550),
balance 30.00 (3000) becomes 4.50 (450). -/
theorem checkout_success_witness :
    (cartTotal S1 = 2550 ∧ S1.walletBalance = 3000 ∧ S1.walletBalance - cartTotal S1 = 450) ∧
    checkout S1 "An" "0909" "HN" =
      (.success S1.nextOrderId,
       { S1 with
         walletBalance := S1.walletBalance - cartTotal S1,
         orders := S1.orders ++
           [{ order_id := S1.nextOrderId, total_amount := cartTotal S1, status := "PAID",
              receiver_name := strip "An", receiver_phone := strip "0909",
              receiver_address := strip "HN" }],
         orderItems := S1.orderItems ++ S1.cartLines.map (checkoutSnapshot S1 S1.nextOrderId),
         cartLines := [],
         cartQuantity := 0,
         nextOrderId := S1.nextOrderId + 1 }) :=
  ⟨by decide,
   checkout_success S1 "An" "0909" "HN" (by decide) (by decide) (by decide) (by decide)
     (by decide) (by decide) (by decide) (by decide)⟩

/-- Witness for C2 at the spec's concrete scenario with balance 20.00. -/
theorem checkout_insufficient_witness :
    (cartTotal S2 = 2550 ∧ S2.walletBalance = 2000) ∧
    checkout S2 "An" "0909" "HN" = (.insufficientFunds S2.walletBalance, S2) :=
  ⟨by decide,
   checkout_insufficient S2 "An" "0909" "HN" (by decide) (by decide) (by decide) (by decide)
     (by decide)⟩

/-- Witness for C3: an empty cart fails with EmptyCart for any wallet
balance; an all-whitespace receiver name fails with InvalidInput for any
wallet balance; the state is unchanged. -/
theorem checkout_validation_witness :
    checkout S0 "An" "0909" "HN" = (.emptyCart, S0) ∧
    (checkout { S0 with walletBalance := 999999 } "An" "0909" "HN").1 = .emptyCart ∧
    checkout S1 "  " "0909" "HN" = (.invalidInput, S1) ∧
    (checkout { S1 with walletBalance := 0 } "  " "0909" "HN").1 = .invalidInput :=
  ⟨((checkout_validation S0 "An" "0909" "HN").1 (by decide)).1,
   ((checkout_validation S0 "An" "0909" "HN").1 (by decide)).2 999999,
   ((checkout_validation S1 "  " "0909" "HN").2 (by decide) (by decide)).1,
   ((checkout_validation S1 "  " "0909" "HN").2 (by decide) (by decide)).2 0⟩

/-- Witness for C4 on a concrete operation sequence mixing every operation. -/
theorem cart_quantity_invariant_witness :
    CartQuantityInv
      (([CartOp.addOp 1, CartOp.addOp 1, CartOp.addOp 2, CartOp.decOp 1, CartOp.removeOp 2,
         CartOp.incOp 3, CartOp.checkoutOp "An" "0909" "HN"]).foldl applyOp S0) :=
  cart_quantity_invariant S0 (by decide)
    [CartOp.addOp 1, CartOp.addOp 1, CartOp.addOp 2, CartOp.decOp 1, CartOp.removeOp 2,
     CartOp.incOp 3, CartOp.checkoutOp "An" "0909" "HN"]

/-- Witness for C5: positivity after a concrete operation sequence, and
decrementing the quantity-1 line of product B deletes it. -/
theorem decrement_deletes_nonpositive_witness :
    PosLines
      (([CartOp.addOp 1, CartOp.decOp 1, CartOp.decOp 2, CartOp.removeOp 1]).foldl applyOp S1) ∧
    decFirst [⟨1, 2⟩, ⟨2, 1⟩] 2 = [⟨1, 2⟩] :=
  ⟨(decrement_deletes_nonpositive S1 (by decide)).1
     [CartOp.addOp 1, CartOp.decOp 1, CartOp.decOp 2, CartOp.removeOp 1],
   (decrement_deletes_nonpositive S1 (by decide)).2 2 [⟨1, 2⟩] [] ⟨2, 1⟩ (by decide) (by decide)⟩

/-- Witness for C6: adding product A to the scenario cart increments its
line from 2 to 3 (recomputed quantity 4); adding it to an empty cart creates
a line with quantity 1. -/
theorem add_to_cart_spec_witness :
    add_to_cart S1 1 = Except.ok { S1 with cartLines := [⟨1, 3⟩, ⟨2, 1⟩], cartQuantity := 4 } ∧
    add_to_cart S0 1 = Except.ok { S0 with cartLines := [⟨1, 1⟩], cartQuantity := 1 } := by
  constructor
  · have h := (add_to_cart_spec S1 1 pA (by decide)).1 [] [⟨2, 1⟩] ⟨1, 2⟩ (by decide) (by decide)
      (by decide)
    exact h.trans (congrArg Except.ok (by decide))
  · have h := (add_to_cart_spec S0 1 pA (by decide)).2 (by decide)
    exact h.trans (congrArg Except.ok (by decide))

/-- Witness for C8: deleting product A from the scenario state leaves only
the product-B cart line, keeps every surviving line resolvable, and the
snapshot loop produces one snapshot per surviving line. -/
theorem checkout_after_delete_witness :
    (runProductDelete S1 1).cartLines = [⟨2, 1⟩] ∧
    WFLines (runProductDelete S1 1) ∧
    (runProductDelete S1 1).cartLines.filterMap (snapshotItem (runProductDelete S1 1) 1) =
      (runProductDelete S1 1).cartLines.map (checkoutSnapshot (runProductDelete S1 1) 1) :=
  ⟨by decide,
   (checkout_after_delete S1 1 pA (by decide) (by decide)).2.1,
   ((checkout_after_delete S1 1 pA (by decide) (by decide)).2.2 1).1⟩

/-- Witness for C9: a -5.00 top-up is rejected unchanged; a +5.00 top-up
moves the balance from 30.00 to 35.00. -/
theorem wallet_topup_spec_witness :
    wallet_topup S1 (-500) = (.invalidAmount, S1) ∧
    wallet_topup S1 500 = (.ok, { S1 with walletBalance := 3500 }) := by
  constructor
  · exact (wallet_topup_spec S1 (-500)).1 (by decide)
  · exact ((wallet_topup_spec S1 500).2 (by decide)).trans (by decide)

/-- Witness for C10: product C exists in the catalog but has no cart line;
decrement answers success and remove returns, both leaving the scenario
state unchanged. -/
theorem cart_noop_missing_line_witness :
    cart_dec S1 3 = Except.ok S1 ∧ cart_remove S1 3 = S1 :=
  cart_noop_missing_line S1 3 pC (by decide) (by decide) (by decide)

end WebBanSua
